import Mathlib

/-!
Shallow embedding of `bricklink.py`, a thin Python client for the Bricklink
catalog web service.  The embedding models:

* parsed JSON documents (`Json`),
* the Python failure modes the client can surface (`PyError`): dictionary
  key lookups (`KeyError`), bad subscripting / keyword-argument expansion
  (`TypeError`), and the client's own `BricklinkException`,
* `BricklinkApi._perform_get_request`, which checks `meta.code` and either
  returns `data` or raises `BricklinkException(**meta)`,
* the URL construction of the five public operations, including the
  truthiness-based inclusion of optional query parameters
  (`if color_id: ...`) and the unconditional `url += "?%s" % join`.

The HTTP transport is modelled as an oracle `http : String → Json` mapping
the requested URL to the parsed JSON body of the response.
-/

namespace Bricklink

/-- Parsed JSON values, as produced by `response.json()` in Python.
Objects are association lists of string keys (Python dicts from `json`
parsing have distinct keys). Numbers are modelled as integers. -/
inductive Json where
  | null : Json
  | bool (b : Bool) : Json
  | num (n : Int) : Json
  | str (s : String) : Json
  | arr (elems : List Json) : Json
  | obj (fields : List (String × Json)) : Json

/-- The failure modes observable from the client:
`keyError k` models Python `KeyError` from `d[k]` on a dict missing `k`;
`typeError` models Python `TypeError` (subscripting a non-dict with a
string key, or a failing keyword-argument expansion `f(**d)`);
`bricklinkException` models the client's own `BricklinkException`,
carrying the (untyped) `code`, `message` and `description` values taken
from the `meta` object. -/
inductive PyError where
  | keyError (k : String) : PyError
  | typeError (msg : String) : PyError
  | bricklinkException (code message description : Json) : PyError

/-- Equality with a numeric literal is decidable (used for the
`meta.code != 200` test; general `Json` equality is not needed). -/
instance (j : Json) (n : Int) : Decidable (j = Json.num n) :=
  match j with
  | .num m =>
    if h : m = n then .isTrue (by rw [h])
    else .isFalse (by intro hc; injection hc; contradiction)
  | .null => .isFalse (by intro hc; exact Json.noConfusion hc)
  | .bool _ => .isFalse (by intro hc; exact Json.noConfusion hc)
  | .str _ => .isFalse (by intro hc; exact Json.noConfusion hc)
  | .arr _ => .isFalse (by intro hc; exact Json.noConfusion hc)
  | .obj _ => .isFalse (by intro hc; exact Json.noConfusion hc)

/-- Python `d[k]` for a string key `k`: a value on dicts holding the key,
`KeyError` on dicts missing it, `TypeError` on every non-dict. -/
def Json.getItem : Json → String → Except PyError Json
  | .obj fields, k =>
    match fields.lookup k with
    | some v => .ok v
    | none => .error (.keyError k)
  | _, k => .error (.typeError ("value is not subscriptable by key " ++ k))

/-- Is `kv` one of the keyword parameters `BricklinkException.__init__`
accepts (`code`, `message`, `description`)? -/
def isMetaKey (kv : String × Json) : Bool :=
  kv.1 == "code" || kv.1 == "message" || kv.1 == "description"

/-- Python `BricklinkException(**fields)`: the keyword expansion succeeds
exactly when `fields` supplies each of `code`, `message`, `description`
and nothing else; a missing parameter or an unexpected keyword raises
`TypeError`. -/
def callBricklinkException (fields : List (String × Json)) :
    Except PyError PyError :=
  match fields.lookup "code" with
  | none => .error (.typeError "missing required keyword argument")
  | some c =>
    match fields.lookup "message" with
    | none => .error (.typeError "missing required keyword argument")
    | some m =>
      match fields.lookup "description" with
      | none => .error (.typeError "missing required keyword argument")
      | some d =>
        if fields.all isMetaKey then
          .ok (.bricklinkException c m d)
        else
          .error (.typeError "unexpected keyword argument")

/-- `BricklinkApi._perform_get_request`, applied to the parsed response
body: evaluate `response['meta']['code']`; if it differs from `200`,
raise `BricklinkException(**response['meta'])`; otherwise return
`response['data']`. -/
def performGetRequest (response : Json) : Except PyError Json :=
  match response.getItem "meta" with
  | .error e => .error e
  | .ok meta =>
    match meta.getItem "code" with
    | .error e => .error e
    | .ok code =>
      if code = Json.num 200 then
        response.getItem "data"
      else
        match meta with
        | .obj fields =>
          match callBricklinkException fields with
          | .ok exc => .error exc
          | .error e => .error e
        | _ => .error (.typeError "argument after ** must be a mapping")

/-- The fixed Bricklink API end-point (`BRICKLINK_URL`). -/
def BRICKLINK_URL : String := "https://api.bricklink.com/api/store/v1"

/-- Python `repr` of a boolean, as produced by the `"%r"` format. -/
def pyReprBool (b : Bool) : String := if b then "True" else "False"

/-- URL built by `getCatalogItem`. -/
def getCatalogItemUrl (type no : String) : String :=
  BRICKLINK_URL ++ "/items/" ++ type ++ "/" ++ no

/-- URL built by `getCatalogItemImage` (`"/images/%d" % color_id`). -/
def getCatalogItemImageUrl (type no : String) (color_id : Int) : String :=
  BRICKLINK_URL ++ "/items/" ++ type ++ "/" ++ no ++ "/images/" ++
    toString color_id

/-- URL built by `getCatalogSupersets`: the query string is appended
only under `if color_id is not None`. -/
def getCatalogSupersetsUrl (type no : String) (color_id : Option Int) :
    String :=
  let url := BRICKLINK_URL ++ "/items/" ++ type ++ "/" ++ no ++ "/supersets"
  match color_id with
  | some c => url ++ "?color_id=" ++ toString c
  | none => url

/-- URL built by `getCatalogSubsets`: each optional parameter is appended
under a Python truthiness test (`if color_id:`, `if box:`, ...), booleans
are formatted with `"%r"`, and `url += "?%s" % "&".join(optional_params)`
runs unconditionally. -/
def getCatalogSubsetsUrl (type no : String) (color_id : Option Int)
    (box instruction break_minifigs break_subsets : Option Bool) : String :=
  let url := BRICKLINK_URL ++ "/items/" ++ type ++ "/" ++ no ++ "/subsets"
  let optional_params : List String :=
    (match color_id with
     | some c => if c ≠ 0 then ["color_id=" ++ toString c] else []
     | none => []) ++
    (match box with
     | some b => if b then ["box=" ++ pyReprBool b] else []
     | none => []) ++
    (match instruction with
     | some b => if b then ["instruction=" ++ pyReprBool b] else []
     | none => []) ++
    (match break_minifigs with
     | some b => if b then ["break_minifigs=" ++ pyReprBool b] else []
     | none => []) ++
    (match break_subsets with
     | some b => if b then ["break_subsets=" ++ pyReprBool b] else []
     | none => [])
  url ++ "?" ++ String.intercalate "&" optional_params

/-- URL built by `getCatalogPriceGuide`: same truthiness pattern; string
parameters are formatted with `"%s"` (so an empty string is dropped by
the truthiness test), and the `"?"` is appended unconditionally. -/
def getCatalogPriceGuideUrl (type no : String) (color_id : Option Int)
    (guide_type new_or_used country_code region currency_code vat :
      Option String) : String :=
  let url := BRICKLINK_URL ++ "/items/" ++ type ++ "/" ++ no ++ "/price"
  let optional_params : List String :=
    (match color_id with
     | some c => if c ≠ 0 then ["color_id=" ++ toString c] else []
     | none => []) ++
    (match guide_type with
     | some s => if s ≠ "" then ["guide_type=" ++ s] else []
     | none => []) ++
    (match new_or_used with
     | some s => if s ≠ "" then ["new_or_used=" ++ s] else []
     | none => []) ++
    (match country_code with
     | some s => if s ≠ "" then ["country_code=" ++ s] else []
     | none => []) ++
    (match region with
     | some s => if s ≠ "" then ["region=" ++ s] else []
     | none => []) ++
    (match currency_code with
     | some s => if s ≠ "" then ["currency_code=" ++ s] else []
     | none => []) ++
    (match vat with
     | some s => if s ≠ "" then ["vat=" ++ s] else []
     | none => [])
  url ++ "?" ++ String.intercalate "&" optional_params

/-- `BricklinkApi.getCatalogItem`, with the signed transport abstracted
as an oracle from the requested URL to the parsed response body. -/
def getCatalogItem (http : String → Json) (type no : String) :
    Except PyError Json :=
  performGetRequest (http (getCatalogItemUrl type no))

/-- `BricklinkApi.getCatalogItemImage`. -/
def getCatalogItemImage (http : String → Json) (type no : String)
    (color_id : Int) : Except PyError Json :=
  performGetRequest (http (getCatalogItemImageUrl type no color_id))

/-- `BricklinkApi.getCatalogSupersets`. -/
def getCatalogSupersets (http : String → Json) (type no : String)
    (color_id : Option Int) : Except PyError Json :=
  performGetRequest (http (getCatalogSupersetsUrl type no color_id))

/-- `BricklinkApi.getCatalogSubsets`. -/
def getCatalogSubsets (http : String → Json) (type no : String)
    (color_id : Option Int)
    (box instruction break_minifigs break_subsets : Option Bool) :
    Except PyError Json :=
  performGetRequest
    (http (getCatalogSubsetsUrl type no color_id box instruction
      break_minifigs break_subsets))

/-- `BricklinkApi.getCatalogPriceGuide`. -/
def getCatalogPriceGuide (http : String → Json) (type no : String)
    (color_id : Option Int)
    (guide_type new_or_used country_code region currency_code vat :
      Option String) : Except PyError Json :=
  performGetRequest
    (http (getCatalogPriceGuideUrl type no color_id guide_type new_or_used
      country_code region currency_code vat))

/-- A well-formed successful response envelope wrapping payload `d`;
used to drive the operations on concrete server behaviours. -/
def mkOkResponse (d : Json) : Json :=
  Json.obj [("meta", Json.obj [("code", Json.num 200),
                               ("message", Json.str "OK"),
                               ("description", Json.str "OK")]),
            ("data", d)]

/-- A well-formed `meta` object for a 404 failure. -/
def metaNotFound : List (String × Json) :=
  [("code", Json.num 404), ("message", Json.str "NOT_FOUND"),
   ("description", Json.str "resource not found")]

/-- A well-formed 404 response envelope (with a `data` field). -/
def respNotFound : Json :=
  Json.obj [("meta", Json.obj metaNotFound), ("data", Json.null)]

/-- A 404 meta object carrying one extra key beyond
`code`/`message`/`description`. -/
def metaExtraKey : List (String × Json) :=
  [("code", Json.num 400), ("message", Json.str "BAD_REQUEST"),
   ("description", Json.str "bad"), ("extra", Json.null)]

/-- A response whose `meta` has an extra key and a non-200 code. -/
def respExtraKey : Json :=
  Json.obj [("meta", Json.obj metaExtraKey), ("data", Json.null)]

/-- A response with a well-formed non-200 `meta` but no `data` field. -/
def respNoData404 : Json :=
  Json.obj [("meta", Json.obj metaNotFound)]

/-- Top-level fields of a response whose `meta.code` is 200 but which
has no `data` field. -/
def okMetaNoDataFields : List (String × Json) :=
  [("meta", Json.obj [("code", Json.num 200), ("message", Json.str "OK"),
                      ("description", Json.str "OK")])]

/-- One subset entry payload (the decoded fields are irrelevant to the
claims; distinct `color_id`s keep the entries distinguishable). -/
def subsetEntry (i : Int) : Json :=
  Json.obj [("color_id", Json.num i), ("quantity", Json.num 1),
            ("extra_quantity", Json.num 0), ("is_alternate", Json.bool false),
            ("is_counterpart", Json.bool false)]

/-- A subset match-group with 2 entries. -/
def subsetGroup1 : Json :=
  Json.obj [("match_no", Json.num 1),
            ("entries", Json.arr [subsetEntry 1, subsetEntry 2])]

/-- A subset match-group with 3 entries. -/
def subsetGroup2 : Json :=
  Json.obj [("match_no", Json.num 2),
            ("entries", Json.arr [subsetEntry 3, subsetEntry 4, subsetEntry 5])]

/-- A subset payload with two match-groups of sizes 2 and 3. -/
def subsetPayload : Json := Json.arr [subsetGroup1, subsetGroup2]

/-- A superset item payload: as on the wire, it carries no `color_id`. -/
def supersetItem (i : Int) : Json :=
  Json.obj [("no", Json.str ("part" ++ toString i)),
            ("name", Json.str "Brick"), ("type", Json.str "PART"),
            ("category_id", Json.num 5)]

/-- A superset entry payload wrapping `supersetItem i`. -/
def supersetEntry (i : Int) : Json :=
  Json.obj [("quantity", Json.num 1), ("appears_as", Json.str "R"),
            ("item", supersetItem i)]

/-- A superset group with `color_id = 5` and 1 entry. -/
def supersetGroup5 : Json :=
  Json.obj [("color_id", Json.num 5),
            ("entries", Json.arr [supersetEntry 1])]

/-- A superset group with `color_id = 11` and 2 entries. -/
def supersetGroup11 : Json :=
  Json.obj [("color_id", Json.num 11),
            ("entries", Json.arr [supersetEntry 2, supersetEntry 3])]

/-- A superset payload with groups `color_id=5` (1 entry) and
`color_id=11` (2 entries). -/
def supersetPayload : Json := Json.arr [supersetGroup5, supersetGroup11]

/-- An item payload missing the required `no` field. -/
def itemMissingNo : Json :=
  Json.obj [("name", Json.str "Brick 2 x 4"), ("type", Json.str "PART"),
            ("category_id", Json.num 5)]

/-- Subscripting a JSON object reduces to an association-list lookup. -/
theorem getItem_obj (fields : List (String × Json)) (k : String) :
    (Json.obj fields).getItem k =
      match fields.lookup k with
      | some v => .ok v
      | none => .error (.keyError k) := rfl

/-- Claim C1: for every response envelope whose `meta` object supplies
`code`, `message` and `description` (and nothing else) and which has a
`data` field, every public operation returns the `data` payload
unchanged when `meta.code = 200`, and fails with a `BricklinkException`
carrying the supplied code, message and description (returning no data)
when `meta.code` is any other value. -/
theorem C1_envelope_dispatch
    (resp : Json) (metaF : List (String × Json)) (c m d data : Json)
    (hm : resp.getItem "meta" = .ok (Json.obj metaF))
    (hc : metaF.lookup "code" = some c)
    (hmsg : metaF.lookup "message" = some m)
    (hdesc : metaF.lookup "description" = some d)
    (hkeys : metaF.all isMetaKey = true)
    (hdata : resp.getItem "data" = .ok data) :
    (c = Json.num 200 →
      ∀ (t n : String) (cid : Int) (oc : Option Int)
        (b i bm bs : Option Bool) (g u cc r cur v : Option String),
        getCatalogItem (fun _ => resp) t n = .ok data ∧
        getCatalogItemImage (fun _ => resp) t n cid = .ok data ∧
        getCatalogSupersets (fun _ => resp) t n oc = .ok data ∧
        getCatalogSubsets (fun _ => resp) t n oc b i bm bs = .ok data ∧
        getCatalogPriceGuide (fun _ => resp) t n oc g u cc r cur v =
          .ok data) ∧
    (c ≠ Json.num 200 →
      ∀ (t n : String) (cid : Int) (oc : Option Int)
        (b i bm bs : Option Bool) (g u cc r cur v : Option String),
        getCatalogItem (fun _ => resp) t n =
          .error (.bricklinkException c m d) ∧
        getCatalogItemImage (fun _ => resp) t n cid =
          .error (.bricklinkException c m d) ∧
        getCatalogSupersets (fun _ => resp) t n oc =
          .error (.bricklinkException c m d) ∧
        getCatalogSubsets (fun _ => resp) t n oc b i bm bs =
          .error (.bricklinkException c m d) ∧
        getCatalogPriceGuide (fun _ => resp) t n oc g u cc r cur v =
          .error (.bricklinkException c m d)) := by
  have hok : c = Json.num 200 → performGetRequest resp = .ok data := by
    intro h200
    subst h200
    unfold performGetRequest
    rw [hm]
    simp [getItem_obj, hc, hdata]
  have herr : c ≠ Json.num 200 →
      performGetRequest resp = .error (.bricklinkException c m d) := by
    intro hne
    unfold performGetRequest
    rw [hm]
    simp [getItem_obj, hc, hne, callBricklinkException, hmsg, hdesc, hkeys]
  constructor
  · intro h200 t n cid oc b i bm bs g u cc r cur v
    refine ⟨?_, ?_, ?_, ?_, ?_⟩ <;>
      simp [getCatalogItem, getCatalogItemImage, getCatalogSupersets,
        getCatalogSubsets, getCatalogPriceGuide, hok h200]
  · intro hne t n cid oc b i bm bs g u cc r cur v
    refine ⟨?_, ?_, ?_, ?_, ?_⟩ <;>
      simp [getCatalogItem, getCatalogItemImage, getCatalogSupersets,
        getCatalogSubsets, getCatalogPriceGuide, herr hne]

/-- Witness for C1: on a concrete well-formed 404 envelope,
`getCatalogItem` fails with the `BricklinkException` built from the
supplied meta fields. -/
theorem C1_envelope_dispatch_witness :
    getCatalogItem (fun _ => respNotFound) "PART" "3001" =
      .error (.bricklinkException (Json.num 404) (Json.str "NOT_FOUND")
        (Json.str "resource not found")) := by
  have h := C1_envelope_dispatch respNotFound metaNotFound
    (Json.num 404) (Json.str "NOT_FOUND") (Json.str "resource not found")
    Json.null rfl rfl rfl rfl rfl rfl
  exact (h.2 (by decide) "PART" "3001" 0 none none none none none none
    none none none none none).1

/-- Claim C6 (counterexample): a response document missing the `data`
field but whose well-formed `meta` has code 404 fails with the
domain-error kind (`BricklinkException`) itself, not with a distinct
malformed-response failure: the `meta` check runs before `data` is read. -/
theorem C6_counterexample :
    getCatalogItem (fun _ => respNoData404) "PART" "3001" =
      .error (.bricklinkException (Json.num 404) (Json.str "NOT_FOUND")
        (Json.str "resource not found")) ∧
    ∀ k : String, getCatalogItem (fun _ => respNoData404) "PART" "3001" ≠
      .error (.keyError k) := by
  have h : getCatalogItem (fun _ => respNoData404) "PART" "3001" =
      .error (.bricklinkException (Json.num 404) (Json.str "NOT_FOUND")
        (Json.str "resource not found")) := rfl
  refine ⟨h, ?_⟩
  intro k hk
  rw [h] at hk
  injection hk with hk2
  exact PyError.noConfusion hk2

/-- Claim C6 (amended): a response missing `meta` fails with
`KeyError "meta"`, and a response whose `meta.code` is 200 but which is
missing `data` fails with `KeyError "data"`; both are distinct from the
domain-error kind (`BricklinkException`). When `data` is missing but
`meta.code` is not 200, however, the domain error takes precedence. -/
theorem C6_missing_field_errors :
    (∀ fs : List (String × Json), fs.lookup "meta" = none →
      performGetRequest (Json.obj fs) = .error (.keyError "meta")) ∧
    (∀ (fs metaF : List (String × Json)),
      fs.lookup "meta" = some (Json.obj metaF) →
      metaF.lookup "code" = some (Json.num 200) →
      fs.lookup "data" = none →
      performGetRequest (Json.obj fs) = .error (.keyError "data")) ∧
    (∀ (k : String) (c m d : Json),
      PyError.keyError k ≠ PyError.bricklinkException c m d) := by
  refine ⟨?_, ?_, ?_⟩
  · intro fs h
    unfold performGetRequest
    simp [getItem_obj, h]
  · intro fs metaF hmeta hcode hdata
    unfold performGetRequest
    simp [getItem_obj, hmeta, hcode, hdata]
  · intro k c m d h
    exact PyError.noConfusion h

/-- Witness for the amended C6: both key-error cases at concrete inputs. -/
theorem C6_missing_field_errors_witness :
    performGetRequest (Json.obj []) = .error (.keyError "meta") ∧
    performGetRequest (Json.obj okMetaNoDataFields) =
      .error (.keyError "data") :=
  ⟨C6_missing_field_errors.1 [] rfl,
   C6_missing_field_errors.2.1 okMetaNoDataFields
     [("code", Json.num 200), ("message", Json.str "OK"),
      ("description", Json.str "OK")] rfl rfl rfl⟩

/-- Claim C9: when the response's `meta` object holds a `code` different
from 200, a `BricklinkException` is raised exactly when the keys of
`meta` are `code`, `message` and `description` and nothing else; with an
extra key, or with `message` or `description` missing, the keyword
expansion `BricklinkException(**meta)` raises a `TypeError` instead. -/
theorem C9_kwargs_exact_keys
    (resp : Json) (metaF : List (String × Json)) (c : Json)
    (hm : resp.getItem "meta" = .ok (Json.obj metaF))
    (hc : metaF.lookup "code" = some c)
    (hne : c ≠ Json.num 200) :
    (∀ m d, metaF.lookup "message" = some m →
      metaF.lookup "description" = some d →
      metaF.all isMetaKey = true →
      performGetRequest resp = .error (.bricklinkException c m d)) ∧
    (metaF.lookup "message" = none ∨ metaF.lookup "description" = none ∨
      metaF.all isMetaKey = false →
      ∃ s, performGetRequest resp = .error (.typeError s)) ∧
    (∀ c2 m2 d2,
      performGetRequest resp = .error (.bricklinkException c2 m2 d2) →
      c2 = c ∧ metaF.lookup "message" = some m2 ∧
      metaF.lookup "description" = some d2 ∧
      metaF.all isMetaKey = true) := by
  have hpr : performGetRequest resp =
      (match callBricklinkException metaF with
       | .ok exc => Except.error exc
       | .error e => Except.error e) := by
    unfold performGetRequest
    rw [hm]
    simp [getItem_obj, hc, hne]
  refine ⟨?_, ?_, ?_⟩
  · intro m d hmsg hdesc hall
    rw [hpr]
    simp [callBricklinkException, hc, hmsg, hdesc, hall]
  · intro h
    rw [hpr]
    cases hmsg : metaF.lookup "message" with
    | none =>
      exact ⟨"missing required keyword argument",
        by simp [callBricklinkException, hc, hmsg]⟩
    | some m =>
      cases hdesc : metaF.lookup "description" with
      | none =>
        exact ⟨"missing required keyword argument",
          by simp [callBricklinkException, hc, hmsg, hdesc]⟩
      | some d =>
        cases hall : metaF.all isMetaKey with
        | false =>
          exact ⟨"unexpected keyword argument",
            by simp [callBricklinkException, hc, hmsg, hdesc, hall]⟩
        | true =>
          rcases h with h | h | h
          · rw [hmsg] at h; exact absurd h (by simp)
          · rw [hdesc] at h; exact absurd h (by simp)
          · rw [hall] at h; exact absurd h (by simp)
  · intro c2 m2 d2 h
    rw [hpr] at h
    cases hmsg : metaF.lookup "message" with
    | none =>
      simp [callBricklinkException, hc, hmsg] at h
    | some m =>
      cases hdesc : metaF.lookup "description" with
      | none =>
        simp [callBricklinkException, hc, hmsg, hdesc] at h
      | some d =>
        cases hall : metaF.all isMetaKey with
        | false =>
          simp [callBricklinkException, hc, hmsg, hdesc, hall] at h
        | true =>
          simp [callBricklinkException, hc, hmsg, hdesc, hall] at h
          exact ⟨h.1.symm, by rw [h.2.1], by rw [h.2.2], rfl⟩

/-- Witness for C9: with a concrete non-200 `meta` carrying an extra
key, the operation fails with a `TypeError`, not a `BricklinkException`. -/
theorem C9_kwargs_exact_keys_witness :
    ∃ s, performGetRequest respExtraKey = .error (.typeError s) :=
  (C9_kwargs_exact_keys respExtraKey metaExtraKey (Json.num 400)
    rfl rfl (by decide)).2.1 (Or.inr (Or.inr rfl))

/-- Claim C2: evaluating the code at the failing input `color_id = 0`:
both `getCatalogSubsets` and `getCatalogPriceGuide` decide inclusion by
truthiness, so the explicitly supplied `color_id = 0` is dropped from
the query string and the URL is identical to the one built with no
`color_id` at all. -/
theorem C2_color_id_zero_dropped :
    getCatalogSubsetsUrl "PART" "3001" (some 0) none none none none =
      "https://api.bricklink.com/api/store/v1/items/PART/3001/subsets?" ∧
    getCatalogSubsetsUrl "PART" "3001" (some 0) none none none none =
      getCatalogSubsetsUrl "PART" "3001" none none none none none ∧
    getCatalogPriceGuideUrl "PART" "3001" (some 0) none none none none none
        none =
      getCatalogPriceGuideUrl "PART" "3001" none none none none none none
        none :=
  ⟨by decide, rfl, rfl⟩

/-- Claim C3 (counterexample): with no optional parameters supplied,
`getCatalogSubsets` and `getCatalogPriceGuide` build URLs that end in a
lone `?`, so the URL does contain a (trailing) query separator. -/
theorem C3_counterexample :
    getCatalogSubsetsUrl "PART" "3001" none none none none none =
      "https://api.bricklink.com/api/store/v1/items/PART/3001/subsets?" ∧
    (getCatalogSubsetsUrl "PART" "3001" none none none none
      none).data.getLast? = some '?' ∧
    getCatalogPriceGuideUrl "PART" "3001" none none none none none none
        none =
      "https://api.bricklink.com/api/store/v1/items/PART/3001/price?" ∧
    (getCatalogPriceGuideUrl "PART" "3001" none none none none none none
      none).data.getLast? = some '?' :=
  ⟨by decide, by decide, by decide, by decide⟩

/-- Claim C3 (amended): every operation's URL embeds `type` and `no`
verbatim in the positional segments `/items/.../...`; with no optional
parameters, `getCatalogItem`, `getCatalogItemImage` and
`getCatalogSupersets` emit no query string, while `getCatalogSubsets`
and `getCatalogPriceGuide` append a lone trailing `?` with an empty
query. -/
theorem C3_amended_urls (t n : String) (c : Int) :
    getCatalogItemUrl t n = BRICKLINK_URL ++ "/items/" ++ t ++ "/" ++ n ∧
    getCatalogItemImageUrl t n c =
      BRICKLINK_URL ++ "/items/" ++ t ++ "/" ++ n ++ "/images/" ++
        toString c ∧
    getCatalogSupersetsUrl t n none =
      BRICKLINK_URL ++ "/items/" ++ t ++ "/" ++ n ++ "/supersets" ∧
    getCatalogSubsetsUrl t n none none none none none =
      BRICKLINK_URL ++ "/items/" ++ t ++ "/" ++ n ++ "/subsets" ++ "?" ∧
    getCatalogPriceGuideUrl t n none none none none none none none =
      BRICKLINK_URL ++ "/items/" ++ t ++ "/" ++ n ++ "/price" ++ "?" := by
  refine ⟨rfl, rfl, rfl, ?_, ?_⟩
  · show (BRICKLINK_URL ++ "/items/" ++ t ++ "/" ++ n ++ "/subsets" ++ "?")
      ++ String.intercalate "&" [] = _
    rw [show String.intercalate "&" ([] : List String) = "" from rfl,
      String.append_empty]
  · show (BRICKLINK_URL ++ "/items/" ++ t ++ "/" ++ n ++ "/price" ++ "?")
      ++ String.intercalate "&" [] = _
    rw [show String.intercalate "&" ([] : List String) = "" from rfl,
      String.append_empty]

/-- Claim C4 (counterexample): on a subset payload with two match-groups
of sizes 2 and 3, `getCatalogSubsets` returns the nested two-group
payload unchanged; the result is not a flat sequence of 5 entries (it is
not `.ok` of any 5-element array). -/
theorem C4_counterexample :
    getCatalogSubsets (fun _ => mkOkResponse subsetPayload) "SET" "8868-1"
      none none none none none = .ok subsetPayload ∧
    ∀ e1 e2 e3 e4 e5 : Json,
      (Except.ok subsetPayload : Except PyError Json) ≠
        .ok (Json.arr [e1, e2, e3, e4, e5]) := by
  refine ⟨rfl, ?_⟩
  intro e1 e2 e3 e4 e5 h
  injection h with h2
  unfold subsetPayload at h2
  injection h2 with h3
  simp at h3

/-- Claim C4 (amended): `getCatalogSubsets` returns the `data` payload
unchanged — the ordered sequence of match-groups, each still holding its
`entries` under its grouping key; no flattening takes place. -/
theorem C4_returns_groups_unflattened (d : Json) (t n : String)
    (oc : Option Int) (b i bm bs : Option Bool) :
    getCatalogSubsets (fun _ => mkOkResponse d) t n oc b i bm bs =
      .ok d := rfl

/-- Claim C5 (counterexample): on a superset payload with groups
`color_id=5` (1 entry) and `color_id=11` (2 entries),
`getCatalogSupersets` returns the payload unchanged, and the nested
item of an entry in the `color_id=11` group carries no `color_id` at
all (looking it up raises `KeyError`): no injection happens. -/
theorem C5_counterexample :
    getCatalogSupersets (fun _ => mkOkResponse supersetPayload) "PART"
      "3001" none = .ok supersetPayload ∧
    (supersetEntry 2).getItem "item" = .ok (supersetItem 2) ∧
    (supersetItem 2).getItem "color_id" = .error (.keyError "color_id") :=
  ⟨rfl, rfl, rfl⟩

/-- Claim C5 (amended): `getCatalogSupersets` returns the `data` payload
unchanged: the per-entry items keep exactly the fields the payload
supplied, and the enclosing group's `color_id` is not injected into
them. -/
theorem C5_returns_groups_without_injection (d : Json) (t n : String)
    (oc : Option Int) :
    getCatalogSupersets (fun _ => mkOkResponse d) t n oc = .ok d := rfl

/-- Claim C7 (counterexample): an item payload missing the required
`no` field is returned unchanged by `getCatalogItem`; the call does not
fail with any error, contradicting the claimed malformed-payload
failure. -/
theorem C7_counterexample :
    getCatalogItem (fun _ => mkOkResponse itemMissingNo) "PART" "3001" =
      .ok itemMissingNo ∧
    ∀ e : PyError,
      getCatalogItem (fun _ => mkOkResponse itemMissingNo) "PART" "3001" ≠
        .error e := by
  have h : getCatalogItem (fun _ => mkOkResponse itemMissingNo) "PART"
      "3001" = .ok itemMissingNo := rfl
  refine ⟨h, ?_⟩
  intro e hk
  rw [h] at hk
  exact Except.noConfusion hk

/-- Claim C7 (amended): `getCatalogItem` performs no payload validation
at all: it returns the `data` payload unchanged whatever fields are
present or absent, so a payload missing `no` is returned as-is instead
of failing with a malformed-payload error. -/
theorem C7_no_payload_validation (d : Json) (t n : String) :
    getCatalogItem (fun _ => mkOkResponse d) t n = .ok d := rfl

/-- Claim C8 (counterexample): the boolean parameter `box`, explicitly
supplied as `False`, is not serialized at all: the query string is empty
and contains no occurrence of `box`. -/
theorem C8_counterexample :
    getCatalogSubsetsUrl "SET" "8868-1" none (some false) none none none =
      "https://api.bricklink.com/api/store/v1/items/SET/8868-1/subsets?" ∧
    ¬ ("box".data <:+:
      (getCatalogSubsetsUrl "SET" "8868-1" none (some false) none none
        none).data) :=
  ⟨by decide, by decide⟩

/-- Claim C8 (amended): for every assignment of the four boolean
optional parameters, the query string of `getCatalogSubsets` consists
exactly of `name=True` for each parameter supplied as `True`, with its
literal Python `repr`, joined in declaration order; and a parameter
supplied as `False` is dropped entirely by the truthiness check,
position by position, exactly as if it had not been supplied. -/
theorem C8_amended_bool_serialization :
    (∀ (t n : String) (b i bm bs : Option Bool),
      getCatalogSubsetsUrl t n none b i bm bs =
        BRICKLINK_URL ++ "/items/" ++ t ++ "/" ++ n ++ "/subsets" ++ "?" ++
          String.intercalate "&"
            ((if b = some true then ["box=True"] else []) ++
             (if i = some true then ["instruction=True"] else []) ++
             (if bm = some true then ["break_minifigs=True"] else []) ++
             (if bs = some true then ["break_subsets=True"] else []))) ∧
    (∀ (t n : String) (oc : Option Int) (i bm bs : Option Bool),
      getCatalogSubsetsUrl t n oc (some false) i bm bs =
        getCatalogSubsetsUrl t n oc none i bm bs) ∧
    (∀ (t n : String) (oc : Option Int) (b bm bs : Option Bool),
      getCatalogSubsetsUrl t n oc b (some false) bm bs =
        getCatalogSubsetsUrl t n oc b none bm bs) ∧
    (∀ (t n : String) (oc : Option Int) (b i bs : Option Bool),
      getCatalogSubsetsUrl t n oc b i (some false) bs =
        getCatalogSubsetsUrl t n oc b i none bs) ∧
    (∀ (t n : String) (oc : Option Int) (b i bm : Option Bool),
      getCatalogSubsetsUrl t n oc b i bm (some false) =
        getCatalogSubsetsUrl t n oc b i bm none) := by
  refine ⟨?_, fun t n oc i bm bs => rfl, fun t n oc b bm bs => rfl,
    fun t n oc b i bs => rfl, fun t n oc b i bm => rfl⟩
  intro t n b i bm bs
  rcases b with _ | b <;> rcases i with _ | i <;>
    rcases bm with _ | bm <;> rcases bs with _ | bs <;>
    (try cases b) <;> (try cases i) <;>
    (try cases bm) <;> (try cases bs) <;> rfl

/-- Claim C10: `getCatalogSupersets` includes `color_id` in the query
string whenever the argument is not `None` — in particular `color_id = 0`
produces `?color_id=0` — while `getCatalogSubsets` and
`getCatalogPriceGuide` decide inclusion by truthiness and omit
`color_id = 0`: the three operations treat the same parameter
inconsistently. -/
theorem C10_inconsistent_color_id :
    (∀ (t n : String) (c : Int), getCatalogSupersetsUrl t n (some c) =
      BRICKLINK_URL ++ "/items/" ++ t ++ "/" ++ n ++ "/supersets" ++
        "?color_id=" ++ toString c) ∧
    getCatalogSupersetsUrl "PART" "3001" (some 0) =
      "https://api.bricklink.com/api/store/v1/items/PART/3001/supersets?color_id=0" ∧
    (∀ t n : String, getCatalogSubsetsUrl t n (some 0) none none none none =
      getCatalogSubsetsUrl t n none none none none none) ∧
    (∀ t n : String,
      getCatalogPriceGuideUrl t n (some 0) none none none none none none =
      getCatalogPriceGuideUrl t n none none none none none none none) ∧
    getCatalogSubsetsUrl "PART" "3001" (some 0) none none none none =
      "https://api.bricklink.com/api/store/v1/items/PART/3001/subsets?" :=
  ⟨fun _ _ _ => rfl, by decide, fun _ _ => rfl, fun _ _ => rfl, by decide⟩

end Bricklink
